import Mathlib

/-!
Verification development for the FMTM backend module
`src/backend/app/central/central_crud.py`.

The Python module is shallowly embedded below:

* XML documents handled by `xml.etree.ElementTree` are modelled by the
  inductive type `Xml`; element tags are stored as the prefixed names used
  by the source's namespace dictionary (`h:` for the XHTML namespace,
  `xforms:` for the XForms namespace), attributes as association lists with
  Python-dict update semantics.
* Remote ODK Central calls are modelled by their observable behaviour: the
  result code they return, or the fact that they raise.  Raising is
  modelled with `Except`; a total return type means the Python function
  cannot propagate an exception.
* The filesystem effects of `create_odk_xform` are modelled by the ordered
  trace of steps executed and by a flag telling whether the staged geodata
  temp file `/tmp/fmtm/odk/<odk_id>/<category>.geojson` exists when the
  call terminates.
-/

/-- An XML element: tag, attribute list (in document order, unique keys as
produced by an XML parser) and child elements.  Mirrors the part of
`xml.etree.ElementTree.Element` that `central_crud.py` reads and writes. -/
inductive Xml where
  | elem (tag : String) (attrs : List (String × String)) (children : List Xml)

/-- Tag of an element. -/
def Xml.tag : Xml → String
  | .elem t _ _ => t

/-- Attribute list of an element (Python `elem.attrib`). -/
def Xml.attrs : Xml → List (String × String)
  | .elem _ a _ => a

/-- Child elements (Python iteration over an `Element`). -/
def Xml.children : Xml → List Xml
  | .elem _ _ c => c

/-- Python `key in elem.attrib` / `elem.attrib.get(key)`: first binding of
the key in the attribute list. -/
def getAttr (a : List (String × String)) (k : String) : Option String :=
  (a.find? (fun p => p.1 = k)).map Prod.snd

/-- Python `elem.attrib[key] = v`: replace the binding of `key` in place,
appending it if absent (dict update semantics). -/
def setAttr : List (String × String) → String → String → List (String × String)
  | [], k, v => [(k, v)]
  | p :: rest, k, v => if p.1 = k then (k, v) :: rest else p :: setAttr rest k v

/-- Python truthiness of an `Element`: an element is truthy iff it has
children (`if head:` in the source). -/
def Xml.truthy (x : Xml) : Bool := !x.children.isEmpty

/-- Python `elem.find(tag, namespaces)`: first direct child with the tag. -/
def findChild (x : Xml) (t : String) : Option Xml :=
  x.children.find? (fun c => c.tag = t)

/-- Python `elem.findall(tag, namespaces)`: all direct children with the tag. -/
def findAllChildren (x : Xml) (t : String) : List Xml :=
  x.children.filter (fun c => c.tag = t)

/-- Python `s.endswith(suffix)`. -/
def pyEndsWith (s suffix : String) : Bool :=
  suffix.data.isSuffixOf s.data

/-- Qualified tag `h:head` resolved by the source's namespace dict. -/
def hHeadTag : String := "h:head"

/-- Qualified tag `xforms:model`. -/
def xfModelTag : String := "xforms:model"

/-- Qualified tag `xforms:instance`. -/
def xfInstanceTag : String := "xforms:instance"

/-- Qualified tag `xforms:data`. -/
def xfDataTag : String := "xforms:data"

/-- Body of the per-data-tag loop of `generate_updated_xform` (lines
496-500): `if "id" in dt.attrib: dt.attrib["id"] = str(xform_path.stem)`. -/
def updateDataTag (stem : String) (dt : Xml) : Xml :=
  if (getAttr dt.attrs "id").isSome then
    .elem dt.tag (setAttr dt.attrs "id" stem) dt.children
  else dt

/-- Effect of the data-tag loop on one child of an instance: `findall`
selects the `xforms:data` children, each of which is updated in place; any
other child is untouched. -/
def dataTagMap (stem : String) (c : Xml) : Xml :=
  if c.tag = xfDataTag then updateDataTag stem c else c

/-- Body of the per-instance loop of `generate_updated_xform` (lines
488-504): rewrite a `.geojson`-suffixed `src` attribute to
`jr://file/<form_category>.geojson`, and rewrite the `id` attribute of every
direct `xforms:data` child that has one to the form path stem. -/
def updateInstance (category stem : String) (inst : Xml) : Xml :=
  let attrs :=
    match getAttr inst.attrs "src" with
    | some src =>
        if pyEndsWith src ".geojson" then
          setAttr inst.attrs "src" ("jr://file/" ++ category ++ ".geojson")
        else inst.attrs
    | none => inst.attrs
  .elem inst.tag attrs (inst.children.map (dataTagMap stem))

/-- Effect of the instance loop on one child of the model: the
`xforms:instance` children are updated in place, the rest untouched. -/
def instanceTagMap (category stem : String) (c : Xml) : Xml :=
  if c.tag = xfInstanceTag then updateInstance category stem c else c

/-- Mutation of the model element: every direct `xforms:instance` child is
rewritten in place (`model.findall("xforms:instance", ...)` followed by the
in-place loop). -/
def updateModel (category stem : String) (model : Xml) : Xml :=
  .elem model.tag model.attrs (model.children.map (instanceTagMap category stem))

/-- Apply `f` to the first child carrying tag `t`, leaving the rest alone:
this is what an in-place mutation of the element returned by
`Element.find` amounts to. -/
def updateFirstChild (t : String) (f : Xml → Xml) : List Xml → List Xml
  | [] => []
  | c :: rest => if c.tag = t then f c :: rest else c :: updateFirstChild t f rest

/-- Mutation of the head element (lines 482-486): look up the first
`xforms:model` child; if it is truthy, rewrite its instances in place,
otherwise nothing happens (`if model:`). -/
def updateHead (category stem : String) (head : Xml) : Xml :=
  match findChild head xfModelTag with
  | some model =>
      if model.truthy then
        .elem head.tag head.attrs
          (updateFirstChild xfModelTag (updateModel category stem) head.children)
      else head
  | none => head

/-- The XML-rewriting core of `generate_updated_xform` (lines 480-507):
find the first `h:head` child of the root; if it is truthy (`if head:`),
rewrite the instances of its first truthy `xforms:model` child in place.
The category plays the role of `form_category`, the stem the role of
`str(xform_path.stem)`. -/
def generate_updated_xform_rewrite (category stem : String) (root : Xml) : Xml :=
  match findChild root hHeadTag with
  | some head =>
      if head.truthy then
        .elem root.tag root.attrs
          (updateFirstChild hHeadTag (updateHead category stem) root.children)
      else root
  | none => root

/-- The instance elements the source iterates over: direct
`xforms:instance` children of the first truthy `xforms:model` child of the
first truthy `h:head` child of the root (lines 480-486); empty whenever one
of the lookups fails or is falsy. -/
def modelInstances (root : Xml) : List Xml :=
  match findChild root hHeadTag with
  | none => []
  | some head =>
      if head.truthy then
        match findChild head xfModelTag with
        | none => []
        | some model =>
            if model.truthy then findAllChildren model xfInstanceTag else []
      else []

deriving instance DecidableEq for Except

/-- One step of the `create_odk_xform` publish sequence. -/
inductive Step where
  | connect | createForm | stageGeodata | attachMedia | cleanupTemp | publish
deriving DecidableEq, Repr

/-- Observable behaviour of the remote ODK Central server during one
`create_odk_xform` call: whether the connection helper, `createForm`,
`uploadMedia` and `publishForm` complete, and the integer result codes the
completing calls return. -/
structure CentralEnv where
  connectOk : Bool
  createFormOk : Bool
  createFormCode : Int
  uploadMediaOk : Bool
  publishOk : Bool
  publishCode : Int
deriving DecidableEq, Repr

/-- Outcome of one `create_odk_xform` call: the ordered trace of steps it
executed, its result (`error` = an exception propagated to the caller,
`ok` = the returned value), and whether the staged geodata temp file
`/tmp/fmtm/odk/<odk_id>/<category>.geojson` still exists on disk when the
call terminates. -/
structure ExecOutcome where
  trace : List Step
  result : Except String Int
  tempFileExists : Bool
deriving DecidableEq, Repr

/-- Shallow embedding of `create_odk_xform` (lines 214-258): connect, then
`createForm`; any result other than 200 and 409 is returned unchanged; then
the geodata temp file is written, `uploadMedia` is called, the temp file is
unlinked, and `publishForm`'s result is returned.  The unlink is a plain
statement after `uploadMedia`, not a `finally` block, so an exception from
`uploadMedia` propagates with the temp file still on disk. -/
def create_odk_xform (env : CentralEnv) : ExecOutcome :=
  if env.connectOk = false then
    { trace := [.connect],
      result := .error "Connection failed to odk central",
      tempFileExists := false }
  else if env.createFormOk = false then
    { trace := [.connect, .createForm],
      result := .error "createForm raised",
      tempFileExists := false }
  else if env.createFormCode ≠ 200 ∧ env.createFormCode ≠ 409 then
    { trace := [.connect, .createForm],
      result := .ok env.createFormCode,
      tempFileExists := false }
  else if env.uploadMediaOk = false then
    { trace := [.connect, .createForm, .stageGeodata, .attachMedia],
      result := .error "uploadMedia raised",
      tempFileExists := true }
  else if env.publishOk = false then
    { trace := [.connect, .createForm, .stageGeodata, .attachMedia,
                .cleanupTemp, .publish],
      result := .error "publishForm raised",
      tempFileExists := false }
  else
    { trace := [.connect, .createForm, .stageGeodata, .attachMedia,
                .cleanupTemp, .publish],
      result := .ok env.publishCode,
      tempFileExists := false }

/-- A Python exception relevant to `create_odk_project`: a FastAPI
`HTTPException` with status code and detail, or any other exception
rendered by its message. -/
inductive PyExn where
  | httpExc (status : Nat) (detail : String)
  | otherExc (msg : String)
deriving DecidableEq, Repr

/-- Python `str(e)` on the exceptions above; for a Starlette/FastAPI
`HTTPException` this renders as `"<status>: <detail>"`. -/
def pyExnStr : PyExn → String
  | .httpExc s d => toString s ++ ": " ++ d
  | .otherExc m => m

/-- The authentication-failed response code `401.2` compared against by
`create_odk_project`, represented as the exact rational 2006/5 = 401.2
(both sides of the Python comparison are the same decimal literal, so
float equality behaves as exact decimal equality). -/
def authFailedCode : ℚ := ⟨2006, 5, by decide, by decide⟩

/-- Shape of `project.createProject(...)`'s return value as inspected by
`create_odk_project`: a dict (whose `code` entry, if any, is compared with
the float `401.2`), or a non-dict value (the source comments that a list
is returned on failure). -/
inductive CreateProjectResult where
  | dictRes (code : Option ℚ)
  | nonDictRes
deriving DecidableEq, Repr

/-- Outcome of one `create_odk_project` call: the project name sent to the
remote server and the response returned or exception raised to the caller. -/
structure CreateProjectCall where
  sentName : String
  response : Except PyExn CreateProjectResult
deriving DecidableEq, Repr

/-- Body of the `try` block of `create_odk_project` (lines 132-146): call
`createProject` on the prefixed name; if the result is a dict whose
`code` is `401.2`, raise an authentication `HTTPException`; otherwise
return the result.  `remote` maps the sent project name to the remote
call's behaviour (result or raised exception). -/
def create_odk_project_try (remote : String → Except PyExn CreateProjectResult)
    (sent : String) : Except PyExn CreateProjectResult :=
  match remote sent with
  | .error e => .error e
  | .ok r =>
    match r with
    | .dictRes (some c) =>
        if c = authFailedCode then
          .error (.httpExc 500 "Could not authenticate to odk central.")
        else .ok r
    | _ => .ok r

/-- Shallow embedding of `create_odk_project` (lines 123-151): the remote
project is created under `"FMTM " + name`; every exception escaping the
`try` block — including the authentication `HTTPException` raised inside
it — is caught by `except Exception` and re-raised as a generic
`HTTPException` whose detail wraps `str(e)`. -/
def create_odk_project (name : String)
    (remote : String → Except PyExn CreateProjectResult) : CreateProjectCall :=
  let sent := "FMTM " ++ name
  { sentName := sent
    response :=
      match create_odk_project_try remote sent with
      | .ok r => .ok r
      | .error e =>
          .error (.httpExc 500
            ("Error creating project on ODK Central: " ++ pyExnStr e)) }

/-- Return value of `delete_odk_project`: the remote server's result on
success, or the soft-failure string. -/
inductive DeleteOutcome where
  | remoteResult (code : Int)
  | softFailure (msg : String)
deriving DecidableEq, Repr

/-- Shallow embedding of `delete_odk_project` (lines 154-166): the whole
body — connection helper included — sits in a `try` whose bare `except`
returns a fixed string; there is no path that raises, which the total
return type `DeleteOutcome` records.  `connect` is the behaviour of
`get_odk_project`, `deleteRes` the behaviour of `project.deleteProject`. -/
def delete_odk_project (connect : Except String Unit)
    (deleteRes : Except String Int) : DeleteOutcome :=
  match connect with
  | .error _ => .softFailure "Could not delete project from central odk"
  | .ok _ =>
    match deleteRes with
    | .error _ => .softFailure "Could not delete project from central odk"
    | .ok r => .remoteResult r

/-- A parsed submission feature as produced by `csvin.createEntry(entry)`:
the top-level dict keys (`len(feature)`, `"tags" in feature`) and the keys
of its `attrs` sub-dict (`"lat" in feature["attrs"]`). -/
structure CsvFeature where
  keys : List String
  attrKeys : List String
deriving DecidableEq, Repr

/-- State of the two output streams of `convert_csv`: the features written
to the OSM stream and to the GeoJSON stream (in write order), and the
number of bad-record warnings logged. -/
structure CsvState where
  osmWritten : List CsvFeature
  geojsonWritten : List CsvFeature
  warnings : Nat
deriving DecidableEq, Repr

/-- The empty output state right after `createOSM` / `createGeoJson`. -/
def csvInit : CsvState := { osmWritten := [], geojsonWritten := [], warnings := 0 }

/-- The per-entry loop of `convert_csv` (lines 569-586).  `dataLen` is
`len(data)` for the raw bytes argument, tested by `if len(data) <= 1:
continue` inside the loop.  A feature with a `tags` key but no `lat` in its
`attrs` reaches `import epdb; epdb.st()` — a debugger breakpoint left in the
code, which halts the batch (and raises `ImportError` where `epdb` is not
installed); that path is modelled as an error that aborts the loop. -/
def processCsvEntries (dataLen : Nat) : List CsvFeature → CsvState →
    Except String CsvState
  | [], st => .ok st
  | f :: rest, st =>
    if dataLen ≤ 1 then processCsvEntries dataLen rest st
    else if 0 < f.keys.length then
      if "tags" ∈ f.keys then
        if "lat" ∈ f.attrKeys then
          processCsvEntries dataLen rest
            { st with osmWritten := st.osmWritten ++ [f],
                      geojsonWritten := st.geojsonWritten ++ [f] }
        else .error "import epdb; epdb.st()"
      else
        processCsvEntries dataLen rest { st with warnings := st.warnings + 1 }
    else processCsvEntries dataLen rest st

/-- Shallow embedding of `convert_csv` (lines 550-591): on empty `data`
bytes the file is parsed without any per-record conversion; otherwise the
entry loop runs over the features parsed from the data (`createEntry`
composed over `csvin.parse`).  The two booleans record whether `finishOSM`
and `finishGeoJson` were reached; an `error` result means an exception
propagated before them. -/
def convert_csv (dataLen : Nat) (features : List CsvFeature) :
    Except String (CsvState × Bool × Bool) :=
  if dataLen = 0 then .ok (csvInit, true, true)
  else
    match processCsvEntries dataLen features csvInit with
    | .ok st => .ok (st, true, true)
    | .error e => .error e

/-- The predicate selecting the records `convert_csv` writes: a non-empty
feature dict carrying a `tags` key and a `lat` attribute. -/
def csvRecordValid (f : CsvFeature) : Bool :=
  decide (0 < f.keys.length) && decide ("tags" ∈ f.keys)
    && decide ("lat" ∈ f.attrKeys)

/-- Return shape of `test_form_validity`: the success dict
`{"required media": ..., "message": ...}` or the error `JSONResponse`
with its status code, message and `possible_reason`. -/
inductive ValidityResponse where
  | media (requiredMedia : List String) (message : String)
  | errorResponse (statusCode : Nat) (message : String) (possibleReason : String)
deriving DecidableEq, Repr

/-- Body of the per-instance loop of `test_form_validity` (lines 389-397):
take the `src` attribute, split on `.`; index `[1]` must equal `geojson`
(an out-of-range index raises `IndexError`, caught by the inner
`except: continue`, modelled as `none`); the name appended is the last
`/`-separated part of the piece before the first dot. -/
def extractGeojsonName (inst : Xml) : Option String :=
  match getAttr inst.attrs "src" with
  | none => none
  | some src =>
    let pieces := src.split (fun c => c = '.')
    match pieces.get? 1 with
    | none => none
    | some p1 =>
      if p1 = "geojson" then ((pieces.headD "").split (fun c => c = '/')).getLast?
      else none

/-- Shallow embedding of `test_form_validity` (lines 360-403).  The
fallible steps inside the outer `try` — writing the upload to disk,
`xls2xform_convert`, reading the produced file back, and
`ElementTree.fromstring` + `findall(".//xforms:instance[@src]")` — are
passed in by their behaviour; any of them raising lands in the outer
`except`, which returns the 400 response.  The total return type records
that no exception propagates to the caller. -/
def test_form_validity (writeStep convertStep readStep : Except String Unit)
    (parseStep : Except String (List Xml)) : ValidityResponse :=
  match writeStep with
  | .error e => .errorResponse 400 "Your form is invalid" e
  | .ok _ =>
    match convertStep with
    | .error e => .errorResponse 400 "Your form is invalid" e
    | .ok _ =>
      match readStep with
      | .error e => .errorResponse 400 "Your form is invalid" e
      | .ok _ =>
        match parseStep with
        | .error e => .errorResponse 400 "Your form is invalid" e
        | .ok instances =>
            .media (instances.filterMap extractGeojsonName) "Your form is valid"

/-- Example instance with a geodata `src`, from the spec's end-to-end
example (category `buildings`, deployment form id `form-42`). -/
def exInstSrc : Xml := .elem xfInstanceTag [("src", "buildings.geojson")] []

/-- Example primary `data` element carrying a stale id. -/
def exDataChild : Xml := .elem xfDataTag [("id", "survey-old")] []

/-- Example instance holding the primary `data` element. -/
def exInstData : Xml := .elem xfInstanceTag [] [exDataChild]

/-- Example model holding the two instances. -/
def exModel : Xml := .elem xfModelTag [] [exInstSrc, exInstData]

/-- Example head holding the model. -/
def exHead : Xml := .elem hHeadTag [] [exModel]

/-- Example XForm document `html/head/model/instance[]`. -/
def exDoc : Xml := .elem "h:html" [] [exHead]

/-- A `data` element carrying an `id` sitting outside any `head/model`
instance: the rewriting step never reaches it. -/
def looseData : Xml := .elem xfDataTag [("id", "stale")] []

/-- C2: the CreateForm result fully decides continuation: any result code
other than 200 and 409 is returned to the caller unchanged with no geodata
staging, media upload, cleanup or publish step executed; result codes 200
and 409 lead to identical continuations through staging, media attachment,
cleanup and publish. -/
theorem create_odk_xform_createform_gate :
    (∀ env : CentralEnv, env.connectOk = true → env.createFormOk = true →
      env.createFormCode ≠ 200 → env.createFormCode ≠ 409 →
      create_odk_xform env
        = { trace := [.connect, .createForm],
            result := .ok env.createFormCode, tempFileExists := false })
    ∧ (∀ e1 e2 : CentralEnv, e1.connectOk = true → e1.createFormOk = true →
        e2.connectOk = true → e2.createFormOk = true →
        e1.createFormCode = 200 → e2.createFormCode = 409 →
        e1.uploadMediaOk = e2.uploadMediaOk → e1.publishOk = e2.publishOk →
        e1.publishCode = e2.publishCode →
        create_odk_xform e1 = create_odk_xform e2) := by
  constructor
  · intro env hc hcf h200 h409
    simp [create_odk_xform, hc, hcf, h200, h409]
  · intro e1 e2 hc1 hcf1 hc2 hcf2 h200 h409 hum hpo hpc
    obtain ⟨co1, cfo1, cfc1, um1, po1, pc1⟩ := e1
    obtain ⟨co2, cfo2, cfc2, um2, po2, pc2⟩ := e2
    simp_all [create_odk_xform]

/-- Witness for the CreateForm gate theorem at result codes 500, 200, 409. -/
theorem create_odk_xform_createform_gate_witness :
    create_odk_xform ⟨true, true, 500, true, true, 200⟩
      = { trace := [.connect, .createForm], result := .ok 500,
          tempFileExists := false }
    ∧ create_odk_xform ⟨true, true, 200, false, true, 200⟩
      = create_odk_xform ⟨true, true, 409, false, true, 200⟩ :=
  ⟨create_odk_xform_createform_gate.1 ⟨true, true, 500, true, true, 200⟩
      rfl rfl (by decide) (by decide),
   create_odk_xform_createform_gate.2 ⟨true, true, 200, false, true, 200⟩
      ⟨true, true, 409, false, true, 200⟩ rfl rfl rfl rfl rfl rfl rfl rfl rfl⟩

/-- C1 counterexample: an execution that reaches the geodata-staging step
and whose `uploadMedia` call raises terminates with the temp geojson file
still on disk — the unlink is skipped because it is not in a `finally`. -/
theorem create_odk_xform_cleanup_counterexample :
    Step.stageGeodata ∈
      (create_odk_xform ⟨true, true, 200, false, true, 200⟩).trace
    ∧ (create_odk_xform ⟨true, true, 200, false, true, 200⟩).tempFileExists
        = true := by
  decide

/-- C1 amended: for every execution of `create_odk_xform` that reaches the
geodata-staging step, the temp geojson file no longer exists after the call
exactly when the AttachMedia upload returned without raising; when the
upload raises, the exception propagates and the file remains. -/
theorem create_odk_xform_cleanup_amended (env : CentralEnv)
    (h : Step.stageGeodata ∈ (create_odk_xform env).trace) :
    (create_odk_xform env).tempFileExists = !env.uploadMediaOk := by
  unfold create_odk_xform at *
  split_ifs at * <;> simp_all

/-- Witness for the amended cleanup theorem at a successful execution. -/
theorem create_odk_xform_cleanup_amended_witness :
    Step.stageGeodata ∈
      (create_odk_xform ⟨true, true, 200, true, true, 200⟩).trace
    ∧ (create_odk_xform ⟨true, true, 200, true, true, 200⟩).tempFileExists
        = !(⟨true, true, 200, true, true, 200⟩ : CentralEnv).uploadMediaOk :=
  ⟨by decide, create_odk_xform_cleanup_amended _ (by decide)⟩

/-- C9: `create_odk_project` always sends the fixed prefix `FMTM ` followed
by the caller-supplied name to the remote server, never the bare name. -/
theorem create_odk_project_sends_prefixed_name (name : String)
    (remote : String → Except PyExn CreateProjectResult) :
    (create_odk_project name remote).sentName = "FMTM " ++ name
    ∧ (create_odk_project name remote).sentName ≠ name := by
  refine ⟨rfl, ?_⟩
  show "FMTM " ++ name ≠ name
  intro h
  have h2 := congrArg String.length h
  rw [String.length_append] at h2
  have h5 : ("FMTM " : String).length = 5 := rfl
  omega

/-- C5: when the remote create-project call returns a dict whose `code` is
`401.2`, the authentication `HTTPException` raised inside the `try` block
is caught by the function's own `except Exception` handler and re-raised
wrapped in the generic creation-error detail, so the caller does not
receive the bare detail `Could not authenticate to odk central.`. -/
theorem create_odk_project_auth_code_wrapped :
    (create_odk_project "test"
        (fun _ => .ok (.dictRes (some authFailedCode)))).response
      = .error (.httpExc 500
          "Error creating project on ODK Central: 500: Could not authenticate to odk central.")
    ∧ ("Error creating project on ODK Central: 500: Could not authenticate to odk central."
        : String) ≠ "Could not authenticate to odk central." := by
  constructor
  · decide
  · decide

/-- C8: `delete_odk_project` never raises: a failing connection step or a
failing remote delete both yield the soft-failure string, and a successful
delete returns the remote result unchanged (the total return type
`DeleteOutcome` carries no exception case). -/
theorem delete_odk_project_never_raises :
    (∀ (e : String) (res : Except String Int),
      delete_odk_project (.error e) res
        = .softFailure "Could not delete project from central odk")
    ∧ (∀ e : String, delete_odk_project (.ok ()) (.error e)
        = .softFailure "Could not delete project from central odk")
    ∧ (∀ n : Int, delete_odk_project (.ok ()) (.ok n) = .remoteResult n) :=
  ⟨fun _ _ => rfl, fun _ => rfl, fun _ => rfl⟩

/-- C6: a record whose feature carries a `tags` key but no `lat` attribute
does not get dropped with a warning — it reaches the `import epdb;
epdb.st()` debugger breakpoint, aborting the batch before the output
streams are finalized; by contrast a record without a `tags` key is
dropped with a warning and processing continues to finalization. -/
theorem convert_csv_missing_lat_hits_debugger :
    convert_csv 2 [⟨["tags", "attrs"], []⟩] = .error "import epdb; epdb.st()"
    ∧ convert_csv 2 [⟨["attrs"], []⟩]
        = .ok ({ osmWritten := [], geojsonWritten := [], warnings := 1 },
               true, true) := by
  decide

/-- C10: `test_form_validity` is total at its interface: whatever the
fallible steps do, the result is either the success dict with message
`Your form is valid`, or a 400 response with message `Your form is
invalid` carrying the failure reason; when every step succeeds the success
dict lists the geojson media names extracted from the instances. -/
theorem test_form_validity_total :
    (∀ (w c r : Except String Unit) (p : Except String (List Xml)),
      (∃ l, test_form_validity w c r p = .media l "Your form is valid")
      ∨ (∃ e, test_form_validity w c r p
          = .errorResponse 400 "Your form is invalid" e))
    ∧ (∀ instances : List Xml,
        test_form_validity (.ok ()) (.ok ()) (.ok ()) (.ok instances)
          = .media (instances.filterMap extractGeojsonName)
              "Your form is valid") := by
  constructor
  · intro w c r p
    cases w with
    | error e => exact .inr ⟨e, rfl⟩
    | ok _ =>
      cases c with
      | error e => exact .inr ⟨e, rfl⟩
      | ok _ =>
        cases r with
        | error e => exact .inr ⟨e, rfl⟩
        | ok _ =>
          cases p with
          | error e => exact .inr ⟨e, rfl⟩
          | ok instances => exact .inl ⟨instances.filterMap extractGeojsonName, rfl⟩
  · intro instances
    rfl

@[simp] lemma Xml.tag_elem (t : String) (a : List (String × String))
    (c : List Xml) : (Xml.elem t a c).tag = t := rfl

@[simp] lemma Xml.attrs_elem (t : String) (a : List (String × String))
    (c : List Xml) : (Xml.elem t a c).attrs = a := rfl

@[simp] lemma Xml.children_elem (t : String) (a : List (String × String))
    (c : List Xml) : (Xml.elem t a c).children = c := rfl

lemma getAttr_setAttr_same (a : List (String × String)) (k v : String) :
    getAttr (setAttr a k v) k = some v := by
  induction a with
  | nil => simp [setAttr, getAttr]
  | cons p rest ih =>
    by_cases h : p.1 = k
    · simp [setAttr, getAttr, h]
    · simpa [setAttr, getAttr, h] using ih

lemma setAttr_same_idem (a : List (String × String)) (k v : String) :
    setAttr (setAttr a k v) k v = setAttr a k v := by
  induction a with
  | nil => simp [setAttr]
  | cons p rest ih =>
    by_cases h : p.1 = k
    · simp [setAttr, h]
    · simp [setAttr, h, ih]

lemma pyEndsWith_append_geojson (a : String) :
    pyEndsWith (a ++ ".geojson") ".geojson" = true := by
  unfold pyEndsWith
  rw [String.data_append]
  rw [List.isSuffixOf_iff_suffix]
  exact List.suffix_append _ _

lemma updateDataTag_tag (s : String) (dt : Xml) :
    (updateDataTag s dt).tag = dt.tag := by
  unfold updateDataTag; split <;> simp

lemma updateDataTag_idem (s : String) (dt : Xml) :
    updateDataTag s (updateDataTag s dt) = updateDataTag s dt := by
  unfold updateDataTag
  by_cases h : (getAttr dt.attrs "id").isSome
  · simp [h, getAttr_setAttr_same, setAttr_same_idem]
  · simp [h]

lemma updateDataTag_id (s : String) (dt : Xml)
    (h : (getAttr dt.attrs "id").isSome) :
    getAttr (updateDataTag s dt).attrs "id" = some s := by
  unfold updateDataTag
  simp [h, getAttr_setAttr_same]

lemma updateDataTag_id_of_getAttr (s v : String) (dt : Xml)
    (h : getAttr (updateDataTag s dt).attrs "id" = some v) :
    (getAttr dt.attrs "id").isSome = false ∨ v = s := by
  by_cases h0 : (getAttr dt.attrs "id").isSome
  · right
    rw [updateDataTag_id s dt h0] at h
    exact (Option.some_inj.mp h).symm
  · left; simpa using h0

lemma dataTagMap_tag (s : String) (c : Xml) : (dataTagMap s c).tag = c.tag := by
  unfold dataTagMap; split <;> simp [updateDataTag_tag]

lemma dataTagMap_idem (s : String) (c : Xml) :
    dataTagMap s (dataTagMap s c) = dataTagMap s c := by
  unfold dataTagMap
  by_cases h : c.tag = xfDataTag
  · simp [h, updateDataTag_tag, updateDataTag_idem]
  · simp [h]


lemma Xml.eq_of_parts (x y : Xml) (ht : x.tag = y.tag) (ha : x.attrs = y.attrs)
    (hc : x.children = y.children) : x = y := by
  cases x with
  | elem t a c =>
    cases y with
    | elem u b d =>
      simp only [Xml.tag_elem, Xml.attrs_elem, Xml.children_elem] at ht ha hc
      rw [ht, ha, hc]

lemma updateInstance_tag (category stem : String) (inst : Xml) :
    (updateInstance category stem inst).tag = inst.tag := by
  unfold updateInstance
  simp

lemma updateInstance_children (category stem : String) (inst : Xml) :
    (updateInstance category stem inst).children
      = inst.children.map (dataTagMap stem) := by
  unfold updateInstance
  simp

lemma updateInstance_attrs_none (category stem : String) (inst : Xml)
    (h : getAttr inst.attrs "src" = none) :
    (updateInstance category stem inst).attrs = inst.attrs := by
  unfold updateInstance
  simp [h]

lemma updateInstance_attrs_nogeo (category stem : String) (inst : Xml)
    (src : String) (h : getAttr inst.attrs "src" = some src)
    (hg : pyEndsWith src ".geojson" = false) :
    (updateInstance category stem inst).attrs = inst.attrs := by
  unfold updateInstance
  simp [h, hg]

lemma updateInstance_attrs_geo (category stem : String) (inst : Xml)
    (src : String) (h : getAttr inst.attrs "src" = some src)
    (hg : pyEndsWith src ".geojson" = true) :
    (updateInstance category stem inst).attrs
      = setAttr inst.attrs "src" ("jr://file/" ++ category ++ ".geojson") := by
  unfold updateInstance
  simp [h, hg]

lemma updateInstance_src (category stem : String) (inst : Xml) (src : String)
    (h : getAttr inst.attrs "src" = some src)
    (hg : pyEndsWith src ".geojson" = true) :
    getAttr (updateInstance category stem inst).attrs "src"
      = some ("jr://file/" ++ category ++ ".geojson") := by
  rw [updateInstance_attrs_geo category stem inst src h hg, getAttr_setAttr_same]

lemma updateInstance_children_idem (category stem : String) (inst : Xml) :
    (updateInstance category stem inst).children.map (dataTagMap stem)
      = (updateInstance category stem inst).children := by
  rw [updateInstance_children, List.map_map]
  exact List.map_congr_left (fun c _ => dataTagMap_idem stem c)

lemma updateInstance_attrs_idem (category stem : String) (inst : Xml) :
    (updateInstance category stem (updateInstance category stem inst)).attrs
      = (updateInstance category stem inst).attrs := by
  cases hs : getAttr inst.attrs "src" with
  | none =>
    have h1 := updateInstance_attrs_none category stem inst hs
    apply updateInstance_attrs_none
    rw [h1, hs]
  | some src =>
    by_cases hg : pyEndsWith src ".geojson" = true
    · have h1 := updateInstance_attrs_geo category stem inst src hs hg
      have h2 : getAttr (updateInstance category stem inst).attrs "src"
          = some ("jr://file/" ++ category ++ ".geojson") := by
        rw [h1, getAttr_setAttr_same]
      rw [updateInstance_attrs_geo category stem
            (updateInstance category stem inst) _ h2
            (pyEndsWith_append_geojson _), h1, setAttr_same_idem]
    · have hg' : pyEndsWith src ".geojson" = false := by
        simpa using hg
      have h1 := updateInstance_attrs_nogeo category stem inst src hs hg'
      have h2 : getAttr (updateInstance category stem inst).attrs "src"
          = some src := by rw [h1, hs]
      rw [updateInstance_attrs_nogeo category stem
            (updateInstance category stem inst) src h2 hg', h1]

lemma updateInstance_idem (category stem : String) (inst : Xml) :
    updateInstance category stem (updateInstance category stem inst)
      = updateInstance category stem inst := by
  apply Xml.eq_of_parts
  · rw [updateInstance_tag, updateInstance_tag]
  · exact updateInstance_attrs_idem category stem inst
  · rw [updateInstance_children category stem (updateInstance category stem inst)]
    exact updateInstance_children_idem category stem inst

lemma instanceTagMap_tag (category stem : String) (c : Xml) :
    (instanceTagMap category stem c).tag = c.tag := by
  unfold instanceTagMap; split <;> simp [updateInstance_tag]

lemma instanceTagMap_idem (category stem : String) (c : Xml) :
    instanceTagMap category stem (instanceTagMap category stem c)
      = instanceTagMap category stem c := by
  unfold instanceTagMap
  by_cases h : c.tag = xfInstanceTag
  · simp [h, updateInstance_tag, updateInstance_idem]
  · simp [h]

lemma updateModel_tag (category stem : String) (model : Xml) :
    (updateModel category stem model).tag = model.tag := by
  unfold updateModel; simp

lemma updateModel_truthy (category stem : String) (model : Xml) :
    (updateModel category stem model).truthy = model.truthy := by
  unfold updateModel Xml.truthy
  cases model.children <;> simp

lemma updateModel_idem (category stem : String) (model : Xml) :
    updateModel category stem (updateModel category stem model)
      = updateModel category stem model := by
  unfold updateModel
  simp only [Xml.tag_elem, Xml.attrs_elem, Xml.children_elem, List.map_map]
  apply Xml.eq_of_parts
  · simp
  · simp
  · simp only [Xml.children_elem]
    exact List.map_congr_left (fun c _ => instanceTagMap_idem category stem c)

lemma filter_tag_map (t : String) (g : Xml → Xml)
    (hg : ∀ x, (g x).tag = x.tag) (cs : List Xml) :
    (cs.map g).filter (fun c => c.tag = t)
      = (cs.filter (fun c => c.tag = t)).map g := by
  induction cs with
  | nil => rfl
  | cons c rest ih =>
    simp only [List.map_cons, List.filter_cons]
    by_cases h : c.tag = t
    · simp [hg c, h, ih]
    · simp [hg c, h, ih]

lemma updateModel_findAll (category stem : String) (model : Xml) :
    findAllChildren (updateModel category stem model) xfInstanceTag
      = (findAllChildren model xfInstanceTag).map
          (updateInstance category stem) := by
  unfold updateModel findAllChildren
  simp only [Xml.children_elem]
  rw [filter_tag_map xfInstanceTag (instanceTagMap category stem)
        (instanceTagMap_tag category stem)]
  apply List.map_congr_left
  intro c hc
  have htag : c.tag = xfInstanceTag := by
    have := List.mem_filter.mp hc
    simpa using this.2
  unfold instanceTagMap
  simp [htag]

lemma updateFirstChild_cons_pos (t : String) (f : Xml → Xml) (c : Xml)
    (rest : List Xml) (h : c.tag = t) :
    updateFirstChild t f (c :: rest) = f c :: rest := by
  simp [updateFirstChild, h]

lemma updateFirstChild_cons_neg (t : String) (f : Xml → Xml) (c : Xml)
    (rest : List Xml) (h : ¬c.tag = t) :
    updateFirstChild t f (c :: rest) = c :: updateFirstChild t f rest := by
  simp [updateFirstChild, h]

lemma updateFirstChild_isEmpty (t : String) (f : Xml → Xml) (cs : List Xml) :
    (updateFirstChild t f cs).isEmpty = cs.isEmpty := by
  cases cs with
  | nil => rfl
  | cons c rest =>
    by_cases h : c.tag = t
    · rw [updateFirstChild_cons_pos t f c rest h]; rfl
    · rw [updateFirstChild_cons_neg t f c rest h]; rfl

lemma find?_updateFirstChild (t : String) (f : Xml → Xml)
    (hf : ∀ x, (f x).tag = x.tag) (cs : List Xml) :
    (updateFirstChild t f cs).find? (fun c => c.tag = t)
      = (cs.find? (fun c => c.tag = t)).map f := by
  induction cs with
  | nil => rfl
  | cons c rest ih =>
    by_cases h : c.tag = t
    · rw [updateFirstChild_cons_pos t f c rest h]
      rw [List.find?_cons_of_pos, List.find?_cons_of_pos]
      · rfl
      · simpa using h
      · simp [hf c, h]
    · rw [updateFirstChild_cons_neg t f c rest h]
      rw [List.find?_cons_of_neg, List.find?_cons_of_neg]
      · exact ih
      · simpa using h
      · simpa using h

lemma updateFirstChild_idem (t : String) (f : Xml → Xml)
    (hf : ∀ x, (f x).tag = x.tag) (hi : ∀ x, f (f x) = f x) (cs : List Xml) :
    updateFirstChild t f (updateFirstChild t f cs)
      = updateFirstChild t f cs := by
  induction cs with
  | nil => rfl
  | cons c rest ih =>
    by_cases h : c.tag = t
    · rw [updateFirstChild_cons_pos t f c rest h]
      rw [updateFirstChild_cons_pos t f (f c) rest (by rw [hf c]; exact h)]
      rw [hi c]
    · rw [updateFirstChild_cons_neg t f c rest h]
      rw [updateFirstChild_cons_neg t f c _ h]
      rw [ih]

lemma updateHead_tag (category stem : String) (hd : Xml) :
    (updateHead category stem hd).tag = hd.tag := by
  unfold updateHead
  split
  · split <;> simp
  · rfl

lemma updateHead_truthy (category stem : String) (hd : Xml) :
    (updateHead category stem hd).truthy = hd.truthy := by
  unfold updateHead
  split
  · split
    · simp [Xml.truthy, updateFirstChild_isEmpty]
    · rfl
  · rfl

lemma updateHead_of_none (category stem : String) (hd : Xml)
    (hm : findChild hd xfModelTag = none) :
    updateHead category stem hd = hd := by
  unfold updateHead
  simp [hm]

lemma updateHead_of_falsy (category stem : String) (hd m : Xml)
    (hm : findChild hd xfModelTag = some m) (ht : m.truthy = false) :
    updateHead category stem hd = hd := by
  unfold updateHead
  simp [hm, ht]

lemma updateHead_of_truthy (category stem : String) (hd m : Xml)
    (hm : findChild hd xfModelTag = some m) (ht : m.truthy = true) :
    updateHead category stem hd
      = .elem hd.tag hd.attrs
          (updateFirstChild xfModelTag (updateModel category stem)
            hd.children) := by
  unfold updateHead
  simp [hm, ht]

lemma findChild_updateHead_truthy (category stem : String) (hd m : Xml)
    (hm : findChild hd xfModelTag = some m) (ht : m.truthy = true) :
    findChild (updateHead category stem hd) xfModelTag
      = some (updateModel category stem m) := by
  rw [updateHead_of_truthy category stem hd m hm ht]
  unfold findChild at *
  simp only [Xml.children_elem]
  rw [find?_updateFirstChild xfModelTag (updateModel category stem)
        (updateModel_tag category stem), hm]
  rfl

lemma updateHead_idem (category stem : String) (hd : Xml) :
    updateHead category stem (updateHead category stem hd)
      = updateHead category stem hd := by
  cases hm : findChild hd xfModelTag with
  | none =>
    rw [updateHead_of_none category stem hd hm,
        updateHead_of_none category stem hd hm]
  | some m =>
    by_cases ht : m.truthy = true
    · have h2 := findChild_updateHead_truthy category stem hd m hm ht
      have h3 : (updateModel category stem m).truthy = true := by
        rw [updateModel_truthy]; exact ht
      rw [updateHead_of_truthy category stem _ _ h2 h3]
      rw [updateHead_of_truthy category stem hd m hm ht]
      simp only [Xml.tag_elem, Xml.attrs_elem, Xml.children_elem]
      rw [updateFirstChild_idem xfModelTag (updateModel category stem)
            (updateModel_tag category stem) (updateModel_idem category stem)]
    · have ht' : m.truthy = false := by simpa using ht
      rw [updateHead_of_falsy category stem hd m hm ht',
          updateHead_of_falsy category stem hd m hm ht']

lemma rewrite_of_none (category stem : String) (root : Xml)
    (hm : findChild root hHeadTag = none) :
    generate_updated_xform_rewrite category stem root = root := by
  unfold generate_updated_xform_rewrite
  simp [hm]

lemma rewrite_of_falsy (category stem : String) (root hd : Xml)
    (hm : findChild root hHeadTag = some hd) (ht : hd.truthy = false) :
    generate_updated_xform_rewrite category stem root = root := by
  unfold generate_updated_xform_rewrite
  simp [hm, ht]

lemma rewrite_of_truthy (category stem : String) (root hd : Xml)
    (hm : findChild root hHeadTag = some hd) (ht : hd.truthy = true) :
    generate_updated_xform_rewrite category stem root
      = .elem root.tag root.attrs
          (updateFirstChild hHeadTag (updateHead category stem)
            root.children) := by
  unfold generate_updated_xform_rewrite
  simp [hm, ht]

lemma findChild_rewrite_truthy (category stem : String) (root hd : Xml)
    (hm : findChild root hHeadTag = some hd) (ht : hd.truthy = true) :
    findChild (generate_updated_xform_rewrite category stem root) hHeadTag
      = some (updateHead category stem hd) := by
  rw [rewrite_of_truthy category stem root hd hm ht]
  unfold findChild at *
  simp only [Xml.children_elem]
  rw [find?_updateFirstChild hHeadTag (updateHead category stem)
        (updateHead_tag category stem), hm]
  rfl

lemma modelInstances_rewrite (category stem : String) (root : Xml) :
    modelInstances (generate_updated_xform_rewrite category stem root)
      = (modelInstances root).map (updateInstance category stem) := by
  cases hm : findChild root hHeadTag with
  | none =>
    rw [rewrite_of_none category stem root hm]
    unfold modelInstances
    simp [hm]
  | some hd =>
    by_cases ht : hd.truthy = true
    · rw [show modelInstances (generate_updated_xform_rewrite category stem root)
            = match findChild (generate_updated_xform_rewrite category stem root)
                hHeadTag with
              | none => []
              | some head =>
                  if head.truthy then
                    match findChild head xfModelTag with
                    | none => []
                    | some model =>
                        if model.truthy then
                          findAllChildren model xfInstanceTag
                        else []
                  else [] from rfl]
      rw [findChild_rewrite_truthy category stem root hd hm ht]
      simp only [updateHead_truthy, ht, if_true]
      unfold modelInstances
      rw [hm]
      simp only [ht, if_true]
      cases hmm : findChild hd xfModelTag with
      | none =>
        rw [updateHead_of_none category stem hd hmm, hmm]
        rfl
      | some m =>
        by_cases htm : m.truthy = true
        · rw [findChild_updateHead_truthy category stem hd m hmm htm]
          simp only [updateModel_truthy, htm, if_true, hmm]
          exact updateModel_findAll category stem m
        · have htm' : m.truthy = false := by simpa using htm
          rw [updateHead_of_falsy category stem hd m hmm htm', hmm]
          simp [htm']
    · have ht' : hd.truthy = false := by simpa using ht
      rw [rewrite_of_falsy category stem root hd hm ht']
      unfold modelInstances
      rw [hm]
      simp [ht']

lemma rewrite_idem_helper (category stem : String) (root : Xml) :
    generate_updated_xform_rewrite category stem
        (generate_updated_xform_rewrite category stem root)
      = generate_updated_xform_rewrite category stem root := by
  cases hm : findChild root hHeadTag with
  | none =>
    rw [rewrite_of_none category stem root hm,
        rewrite_of_none category stem root hm]
  | some hd =>
    by_cases ht : hd.truthy = true
    · have h2 := findChild_rewrite_truthy category stem root hd hm ht
      have h3 : (updateHead category stem hd).truthy = true := by
        rw [updateHead_truthy]; exact ht
      rw [rewrite_of_truthy category stem _ _ h2 h3]
      rw [rewrite_of_truthy category stem root hd hm ht]
      simp only [Xml.tag_elem, Xml.attrs_elem, Xml.children_elem]
      rw [updateFirstChild_idem hHeadTag (updateHead category stem)
            (updateHead_tag category stem) (updateHead_idem category stem)]
    · have ht' : hd.truthy = false := by simpa using ht
      rw [rewrite_of_falsy category stem root hd hm ht',
          rewrite_of_falsy category stem root hd hm ht']

/-- C3: the rewriting step of `generate_updated_xform` rewrites the `src`
attribute of every instance under `head/model` whose `src` ends in
`.geojson` to `jr://file/<category>.geojson`, and rewrites the `id` of
every `xforms:data` child of such an instance carrying one to the
deployment form identifier (the XForm path stem): the instances of the
output document are exactly the per-instance rewrites of the input's
instances (first conjunct), a matching `src` is rewritten to the fixed
reference (second), and every `data` child carrying an `id` is rewritten
to the stem and kept among the instance's children (third). -/
theorem generate_updated_xform_rewrites_bindings (root : Xml)
    (category stem : String) :
    modelInstances (generate_updated_xform_rewrite category stem root)
      = (modelInstances root).map (updateInstance category stem)
    ∧ (∀ inst ∈ modelInstances root, ∀ src : String,
        getAttr inst.attrs "src" = some src →
        pyEndsWith src ".geojson" = true →
        getAttr (updateInstance category stem inst).attrs "src"
          = some ("jr://file/" ++ category ++ ".geojson"))
    ∧ (∀ inst ∈ modelInstances root, ∀ c ∈ inst.children,
        c.tag = xfDataTag → (getAttr c.attrs "id").isSome = true →
        getAttr (dataTagMap stem c).attrs "id" = some stem
        ∧ dataTagMap stem c
            ∈ (updateInstance category stem inst).children) := by
  refine ⟨modelInstances_rewrite category stem root, ?_, ?_⟩
  · intro inst _ src h hg
    exact updateInstance_src category stem inst src h hg
  · intro inst _ c hc htag hid
    constructor
    · unfold dataTagMap
      rw [if_pos htag]
      exact updateDataTag_id stem c hid
    · rw [updateInstance_children]
      exact List.mem_map_of_mem _ hc

/-- Witness for the rewriting theorem at the spec's end-to-end example:
category `buildings`, deployment form id `form-42`. -/
theorem generate_updated_xform_rewrites_bindings_witness :
    getAttr (updateInstance "buildings" "form-42" exInstSrc).attrs "src"
      = some "jr://file/buildings.geojson"
    ∧ getAttr (dataTagMap "form-42" exDataChild).attrs "id" = some "form-42"
    ∧ dataTagMap "form-42" exDataChild
        ∈ (updateInstance "buildings" "form-42" exInstData).children := by
  have h := generate_updated_xform_rewrites_bindings exDoc "buildings" "form-42"
  have hmem1 : exInstSrc ∈ modelInstances exDoc := by
    rw [show modelInstances exDoc = [exInstSrc, exInstData] from rfl]
    exact List.mem_cons_self _ _
  have hmem2 : exInstData ∈ modelInstances exDoc := by
    rw [show modelInstances exDoc = [exInstSrc, exInstData] from rfl]
    exact List.mem_cons_of_mem _ (List.mem_cons_self _ _)
  have hchild : exDataChild ∈ exInstData.children := by
    rw [show exInstData.children = [exDataChild] from rfl]
    exact List.mem_cons_self _ _
  refine ⟨?_, ?_, ?_⟩
  · exact h.2.1 exInstSrc hmem1 "buildings.geojson" rfl (by decide)
  · exact (h.2.2 exInstData hmem2 exDataChild hchild rfl rfl).1
  · exact (h.2.2 exInstData hmem2 exDataChild hchild rfl rfl).2

/-- C4 counterexample: a `data` element carrying an `id` that does not sit
under a `head/model` instance is left untouched by the rewriting step, so
after one application its `id` still differs from the supplied deployment
form identifier, refuting the claim's clause that every `data` element
carrying an `id` ends up with the supplied identifier. -/
theorem rewrite_loose_data_counterexample :
    generate_updated_xform_rewrite "buildings" "form-42" looseData = looseData
    ∧ looseData.tag = xfDataTag
    ∧ getAttr looseData.attrs "id" = some "stale"
    ∧ getAttr (generate_updated_xform_rewrite "buildings" "form-42"
        looseData).attrs "id" ≠ some "form-42" := by
  refine ⟨rfl, rfl, rfl, ?_⟩
  rw [show generate_updated_xform_rewrite "buildings" "form-42" looseData
        = looseData from rfl]
  decide

/-- C4 (amended): the rewriting step of `generate_updated_xform` is
idempotent — applying it twice with the same category and stem yields the
same document as applying it once — and after one application every
`xforms:data` element that is a direct child of an instance under
`head/model` and carries an `id` has that `id` equal to the supplied
deployment form identifier.  (A `data` element elsewhere in the document is
not rewritten, as the counterexample shows.) -/
theorem generate_updated_xform_rewrite_idem (root : Xml)
    (category stem : String) :
    generate_updated_xform_rewrite category stem
        (generate_updated_xform_rewrite category stem root)
      = generate_updated_xform_rewrite category stem root
    ∧ ∀ inst ∈ modelInstances
          (generate_updated_xform_rewrite category stem root),
        ∀ dt ∈ inst.children, dt.tag = xfDataTag →
          ∀ v : String, getAttr dt.attrs "id" = some v → v = stem := by
  constructor
  · exact rewrite_idem_helper category stem root
  · intro inst hinst dt hdt htag v hv
    rw [modelInstances_rewrite] at hinst
    obtain ⟨inst0, hinst0, rfl⟩ := List.mem_map.mp hinst
    rw [updateInstance_children] at hdt
    obtain ⟨c, hc, rfl⟩ := List.mem_map.mp hdt
    have htag0 : c.tag = xfDataTag := by
      rw [← dataTagMap_tag stem c]; exact htag
    unfold dataTagMap at hv
    rw [if_pos htag0] at hv
    rcases updateDataTag_id_of_getAttr stem v c hv with h0 | h0
    · unfold updateDataTag at hv
      rw [if_neg (by simp [h0])] at hv
      rw [hv] at h0
      simp at h0
    · exact h0

/-- Witness for the idempotence theorem at the example document. -/
theorem generate_updated_xform_rewrite_idem_witness :
    generate_updated_xform_rewrite "buildings" "form-42"
        (generate_updated_xform_rewrite "buildings" "form-42" exDoc)
      = generate_updated_xform_rewrite "buildings" "form-42" exDoc
    ∧ ("form-42" : String) = "form-42" := by
  have h := generate_updated_xform_rewrite_idem exDoc "buildings" "form-42"
  refine ⟨h.1, ?_⟩
  have hmem : updateInstance "buildings" "form-42" exInstData
      ∈ modelInstances
          (generate_updated_xform_rewrite "buildings" "form-42" exDoc) := by
    rw [show modelInstances
          (generate_updated_xform_rewrite "buildings" "form-42" exDoc)
        = [updateInstance "buildings" "form-42" exInstSrc,
           updateInstance "buildings" "form-42" exInstData] from rfl]
    exact List.mem_cons_of_mem _ (List.mem_cons_self _ _)
  have hchild : dataTagMap "form-42" exDataChild
      ∈ (updateInstance "buildings" "form-42" exInstData).children := by
    rw [show (updateInstance "buildings" "form-42" exInstData).children
        = [dataTagMap "form-42" exDataChild] from rfl]
    exact List.mem_cons_self _ _
  exact h.2 (updateInstance "buildings" "form-42" exInstData) hmem
    (dataTagMap "form-42" exDataChild) hchild rfl "form-42" rfl

lemma processCsvEntries_ok (dataLen : Nat) (hlen : 1 < dataLen) :
    ∀ (fs : List CsvFeature) (st : CsvState),
      (∀ f ∈ fs, "tags" ∈ f.keys → "lat" ∈ f.attrKeys) →
      processCsvEntries dataLen fs st
        = .ok { osmWritten := st.osmWritten ++ fs.filter csvRecordValid,
                geojsonWritten :=
                  st.geojsonWritten ++ fs.filter csvRecordValid,
                warnings := st.warnings
                  + (fs.filter (fun f => decide (0 < f.keys.length)
                      && !decide ("tags" ∈ f.keys))).length } := by
  intro fs
  induction fs with
  | nil =>
    intro st _
    simp [processCsvEntries]
  | cons f rest ih =>
    intro st hg
    have hlen' : ¬dataLen ≤ 1 := by omega
    unfold processCsvEntries
    rw [if_neg hlen']
    by_cases hk : 0 < f.keys.length
    · rw [if_pos hk]
      by_cases htags : "tags" ∈ f.keys
      · rw [if_pos htags]
        have hlat := hg f (List.mem_cons_self f rest) htags
        rw [if_pos hlat]
        rw [ih _ (fun x hx => hg x (List.mem_cons_of_mem f hx))]
        have hv : csvRecordValid f = true := by
          simp [csvRecordValid, hk, htags, hlat]
        simp [List.filter_cons, hv, hk, htags]
      · rw [if_neg htags]
        rw [ih _ (fun x hx => hg x (List.mem_cons_of_mem f hx))]
        have hv : csvRecordValid f = false := by
          simp [csvRecordValid, htags]
        simp [List.filter_cons, hv, hk, htags]
        omega
    · rw [if_neg hk]
      rw [ih _ (fun x hx => hg x (List.mem_cons_of_mem f hx))]
      have hv : csvRecordValid f = false := by
        simp [csvRecordValid, hk]
      simp [List.filter_cons, hv, hk]

/-- C7: for every batch whose tagged records carry geometry, `convert_csv`
writes exactly the valid records (non-empty feature, `tags` key, `lat`
attribute) to the OSM stream and to the GeoJSON stream, in the same order
from the same iteration, so the two outputs are identical lists; and both
streams are finalized regardless of how many records were skipped.  The
hypothesis `1 < dataLen` states that the raw CSV bytes passed in hold at
least two bytes — the conversion loop skips every record otherwise. -/
theorem convert_csv_outputs_in_sync (dataLen : Nat)
    (features : List CsvFeature) (hlen : 1 < dataLen)
    (hgeom : ∀ f ∈ features, "tags" ∈ f.keys → "lat" ∈ f.attrKeys) :
    ∃ st : CsvState,
      convert_csv dataLen features = .ok (st, true, true)
      ∧ st.osmWritten = features.filter csvRecordValid
      ∧ st.geojsonWritten = features.filter csvRecordValid := by
  refine ⟨{ osmWritten := features.filter csvRecordValid,
            geojsonWritten := features.filter csvRecordValid,
            warnings := (features.filter (fun f => decide (0 < f.keys.length)
              && !decide ("tags" ∈ f.keys))).length }, ?_, rfl, rfl⟩
  unfold convert_csv
  rw [if_neg (by omega)]
  rw [processCsvEntries_ok dataLen hlen features csvInit hgeom]
  simp [csvInit]

/-- Witness for the output-sync theorem on a batch holding one valid
record, one record without tags and one empty record. -/
theorem convert_csv_outputs_in_sync_witness :
    ∃ st : CsvState,
      convert_csv 10
          [⟨["tags", "attrs"], ["lat"]⟩, ⟨["attrs"], []⟩, ⟨[], []⟩]
        = .ok (st, true, true)
      ∧ st.osmWritten
          = List.filter csvRecordValid
              [⟨["tags", "attrs"], ["lat"]⟩, ⟨["attrs"], []⟩, ⟨[], []⟩]
      ∧ st.geojsonWritten
          = List.filter csvRecordValid
              [⟨["tags", "attrs"], ["lat"]⟩, ⟨["attrs"], []⟩, ⟨[], []⟩] :=
  convert_csv_outputs_in_sync 10
    [⟨["tags", "attrs"], ["lat"]⟩, ⟨["attrs"], []⟩, ⟨[], []⟩]
    (by decide) (by decide)
